import Mathlib

/-!
Verification of the SonarQube step implementer
(`src/tssc/step_implementers/static_code_analysis/sonarqube.py`).

The Python module is embedded shallowly:

* Python `None`-or-string values become `Option String` (`PyStr`), with
  Python truthiness (`None` and `""` are falsy) made explicit (`truthy`).
* The merged step configuration dictionary becomes an association list
  `ConfigDict`; key membership (`x in dict`) and value lookup are separate
  operations, since a key may be present with value `None`.
* Framework services that live outside this file's source (the engine's
  `get_config_value` / `has_config_value` / `get_step_results` /
  `get_working_dir`, the base-class required-key validation, the
  filesystem, and the external `sonar-scanner` process) are modelled from
  the spec as explicit parameters or definitions marked
  `Modelled from the spec:`.
* Python exceptions become an error type `StepError` whose constructors
  are named after the spec's error taxonomy (§7); each raise site notes
  the concrete Python exception class it embeds.
* `run` returns a `RunOutcome`: the `Except` result together with the
  list of argument vectors actually passed to the external scanner, so
  that "the process is never invoked" is a statement about the trace.
-/

/-- A Python string-or-`None` value: `none` is Python `None`. -/
abbrev PyStr := Option String

/-- Python truthiness of a string-or-`None` value: `None` and the empty
string are falsy, every other string is truthy. -/
def truthy : PyStr → Bool
  | none => false
  | some s => !(s == "")

/-- The merged runtime step configuration: a dictionary from keys to
string-or-`None` values (Python dicts have no duplicate keys; lookup
takes the first matching entry). -/
abbrev ConfigDict := List (String × PyStr)

/-- Python `key in dict` on the merged configuration. -/
def hasKey (c : ConfigDict) (k : String) : Bool :=
  (List.lookup k c).isSome

/-- Modelled from the spec: the engine's configuration read interface
`getConfigValue(key) -> value | absent` (§6); a key that is absent or
mapped to `None` resolves to `none`. -/
def get_config_value (c : ConfigDict) (k : String) : PyStr :=
  (List.lookup k c).join

/-- `AUTHENTICATION_CONFIG` from the source is the dict
`{'user': None, 'password': None}`; iterating it yields its keys. -/
def AUTHENTICATION_CONFIG_KEYS : List String := ["user", "password"]

/-- `REQUIRED_CONFIG_KEYS` from the source. -/
def REQUIRED_CONFIG_KEYS : List String := ["url", "application-name", "service-name"]

/-- `DEFAULT_CONFIG` from the source (applied by the engine at lowest
precedence when it builds the merged configuration). -/
def DEFAULT_CONFIG : ConfigDict := [("properties", some "./sonar-project.properties")]

/-- Modelled from the spec: the engine's `hasConfigValue(keySet) -> bool`
interface (§6) — true when every key in the set resolves to a value in
the merged configuration. -/
def has_config_value (c : ConfigDict) (keys : List String) : Bool :=
  keys.all fun k => (get_config_value c k).isSome

/-- Errors raised out of `run`, named after the spec's error taxonomy
(§7).  `configurationError` embeds the `AssertionError` raised by
validation and the `ValueError` raised for a missing properties file;
`missingDependencyResultError` embeds the `ValueError` raised for a
missing `generate-metadata` version; `externalToolError` embeds the
`RuntimeError` wrapping `sh.ErrorReturnCode`; `typeError` embeds a
Python `TypeError` (string concatenation with `None`). -/
inductive StepError where
  | configurationError (msg : String)
  | missingDependencyResultError (msg : String)
  | externalToolError (msg : String)
  | typeError (msg : String)
deriving DecidableEq, Repr

instance {ε α : Type} [DecidableEq ε] [DecidableEq α] : DecidableEq (Except ε α) := by
  intro a b
  cases a <;> cases b
  case error.error e f =>
    exact if h : e = f then .isTrue (by rw [h]) else .isFalse (by simp [h])
  case error.ok e v => exact .isFalse (by simp)
  case ok.error v e => exact .isFalse (by simp)
  case ok.ok v w =>
    exact if h : v = w then .isTrue (by rw [h]) else .isFalse (by simp [h])

/-- Modelled from the spec: the framework base class's runtime step-config
validation, which `SonarQube._validate_runtime_step_config` calls via
`super()`: every declared required configuration key must be present in
the merged configuration (§4.1 rule 2, ConfigurationError on violation). -/
def validate_required_keys (c : ConfigDict) : Except StepError Unit :=
  if REQUIRED_CONFIG_KEYS.all (fun k => hasKey c k) then .ok ()
  else .error (.configurationError "Missing required step configuration keys")

/-- `SonarQube._validate_runtime_step_config`: the base-class required-key
check followed by the credential-pair assertion
`all(k in cfg for k in AUTHENTICATION_CONFIG) or not any(...)`
(an `AssertionError` in Python, a ConfigurationError in the spec's
taxonomy). -/
def _validate_runtime_step_config (c : ConfigDict) : Except StepError Unit :=
  match validate_required_keys c with
  | .error e => .error e
  | .ok _ =>
    if AUTHENTICATION_CONFIG_KEYS.all (fun k => hasKey c k)
        || !(AUTHENTICATION_CONFIG_KEYS.any fun k => hasKey c k) then
      .ok ()
    else
      .error (.configurationError
        "Either username or password is not set. Neither or both must be set.")

/-- Lines 218–225 of `_run_step`: `user` and `password` start as `''` and
are assigned the configured values only when `has_config_value` holds for
the authentication keys and both configured values are truthy. -/
def credentials (c : ConfigDict) : String × String :=
  if has_config_value c AUTHENTICATION_CONFIG_KEYS then
    if truthy (get_config_value c "user") && truthy (get_config_value c "password") then
      ((get_config_value c "user").getD "", (get_config_value c "password").getD "")
    else ("", "")
  else ("", "")

/-- A prior step's result record (a Python dict of string-or-`None`
values). -/
abbrev ResultsDict := List (String × PyStr)

/-- Python dict `.get(key)` on a result record: `None` when absent. -/
def dictGet (d : ResultsDict) (k : String) : PyStr :=
  (List.lookup k d).join

/-- Python truthiness of `get_step_results(...)`: falsy when the step has
no results (`None`) or the result dict is empty. -/
def step_results_truthy : Option ResultsDict → Bool
  | none => false
  | some d => !d.isEmpty

/-- `get_step_results(...).get(key)`, total over the `Option`. -/
def results_get (r : Option ResultsDict) (k : String) : PyStr :=
  match r with
  | none => none
  | some d => dictGet d k

/-- Lines 227–232 of `_run_step`: require a truthy `generate-metadata`
result with a truthy `version` value, else raise
(`ValueError` in Python, MissingDependencyResultError in the spec's
taxonomy). -/
def get_version (r : Option ResultsDict) : Except StepError String :=
  if step_results_truthy r && truthy (results_get r "version") then
    .ok ((results_get r "version").getD "")
  else
    .error (.missingDependencyResultError
      "Severe error: Generate-metadata results is missing a version tag")

/-- Python `str + value` where `value` may be `None`: concatenating with
`None` raises `TypeError` before any enclosing `raise`/call happens. -/
def concatVal (pre : String) (v : PyStr) : Except StepError String :=
  match v with
  | some s => .ok (pre ++ s)
  | none => .error (.typeError "can only concatenate str (not \"NoneType\") to str")

/-- Lines 234–237 of `_run_step`: the properties file must be a truthy
path that exists on disk; on violation the code raises
`ValueError('Properties file in tssc config not found: ' + properties_file)`,
whose message concatenation itself raises `TypeError` when the resolved
properties value is `None`.  The filesystem is the explicit parameter
`fileExists`. -/
def check_properties (c : ConfigDict) (fileExists : String → Bool) : Except StepError Unit :=
  let pf := get_config_value c "properties"
  if !truthy pf || !fileExists (pf.getD "") then
    match concatVal "Properties file in tssc config not found: " pf with
    | .error e => .error e
    | .ok msg => .error (.configurationError msg)
  else .ok ()

/-- Lines 248–251 / 261–264: the project-key argument
`'-Dsonar.projectKey=' + application-name + ':' + service-name`
(left-associated Python concatenation). -/
def projectKeyArg (c : ConfigDict) : Except StepError String :=
  match concatVal "-Dsonar.projectKey=" (get_config_value c "application-name") with
  | .error e => .error e
  | .ok ka => concatVal (ka ++ ":") (get_config_value c "service-name")

/-- Lines 244–255: the argument vector of the non-credentialed
`sh.sonar_scanner` call. -/
def nonCredentialedArgs (c : ConfigDict) (version working_directory : String) :
    Except StepError (List String) :=
  match concatVal "-Dproject.settings=" (get_config_value c "properties") with
  | .error e => .error e
  | .ok a1 =>
    match concatVal "-Dsonar.host.url=" (get_config_value c "url") with
    | .error e => .error e
    | .ok a2 =>
      match projectKeyArg c with
      | .error e => .error e
      | .ok a4 =>
        .ok [a1, a2, "-Dsonar.projectVersion=" ++ version, a4,
          "-Dsonar.working.directory=" ++ working_directory]

/-- Lines 257–270: the argument vector of the credentialed
`sh.sonar_scanner` call. -/
def credentialedArgs (c : ConfigDict) (version working_directory user password : String) :
    Except StepError (List String) :=
  match concatVal "-Dproject.settings=" (get_config_value c "properties") with
  | .error e => .error e
  | .ok a1 =>
    match concatVal "-Dsonar.host.url=" (get_config_value c "url") with
    | .error e => .error e
    | .ok a2 =>
      match projectKeyArg c with
      | .error e => .error e
      | .ok a4 =>
        .ok [a1, a2, "-Dsonar.projectVersion=" ++ version, a4,
          "-Dsonar.login=" ++ user, "-Dsonar.password=" ++ password,
          "-Dsonar.working.directory=" ++ working_directory]

/-- The step result record built on lines 275–286 for a successful scan. -/
structure ReportArtifact where
  name : String
  path : String
deriving DecidableEq, Repr

/-- The `result` sub-dictionary of the step results. -/
structure ResultRecord where
  success : Bool
  message : String
deriving DecidableEq, Repr

/-- The value returned by `_run_step` on success. -/
structure StepResult where
  result : ResultRecord
  reportArtifacts : List ReportArtifact
deriving DecidableEq, Repr

/-- Lines 275–287: the success results dictionary. -/
def step_success_results (working_directory : String) : StepResult :=
  { result :=
      { success := true
        message := "sonarqube step completed - see report-artifacts" }
    reportArtifacts :=
      [{ name := "sonarqube result set"
         path := "file://" ++ working_directory ++ "/report-task.txt" }] }

/-- The observable outcome of one `run`: the returned value or raised
error, together with the argument vectors passed to the external
scanner (empty when the process was never invoked). -/
structure RunOutcome where
  result : Except StepError StepResult
  invoked : List (List String)
deriving DecidableEq, Repr

/-- `SonarQube._run_step` (lines 209–287).  External collaborators are
parameters: `get_step_results` (the engine's prior-result interface),
`fileExists` (`os.path.exists`), `working_directory`
(`self.get_working_dir()`), `scannerSucceeds` (whether
`sh.sonar_scanner` exits with status zero on a given argument vector),
and `errorDetail` (the text of the `sh.ErrorReturnCode` on failure).
The Python code assigns `user`/`password` (lines 218–225) before the
version check; that computation is the pure function `credentials`, so
referring to it at its use site is unobservable. -/
def _run_step (c : ConfigDict) (get_step_results : String → Option ResultsDict)
    (fileExists : String → Bool) (working_directory : String)
    (scannerSucceeds : List String → Bool) (errorDetail : String) : RunOutcome :=
  match get_version (get_step_results "generate-metadata") with
  | .error e => ⟨.error e, []⟩
  | .ok version =>
    match check_properties c fileExists with
    | .error e => ⟨.error e, []⟩
    | .ok _ =>
      match (if (credentials c).1 == "" then
              nonCredentialedArgs c version working_directory
            else
              credentialedArgs c version working_directory
                (credentials c).1 (credentials c).2) with
      | .error e => ⟨.error e, []⟩
      | .ok args =>
        if scannerSucceeds args then
          ⟨.ok (step_success_results working_directory), [args]⟩
        else
          ⟨.error (.externalToolError ("Error invoking sonarscanner: " ++ errorDetail)),
            [args]⟩

/-- Modelled from the spec: the engine's `run()` contract (§4.1) —
runtime step-config validation runs first and aborts the step on
failure, then the step body executes. -/
def run (c : ConfigDict) (get_step_results : String → Option ResultsDict)
    (fileExists : String → Bool) (working_directory : String)
    (scannerSucceeds : List String → Bool) (errorDetail : String) : RunOutcome :=
  match _validate_runtime_step_config c with
  | .error e => ⟨.error e, []⟩
  | .ok _ =>
    _run_step c get_step_results fileExists working_directory scannerSucceeds errorDetail

/-! ### Helper lemmas about the embedding -/

theorem str_append_assoc (a b c : String) : (a ++ b) ++ c = a ++ (b ++ c) := by
  apply String.ext
  simp [String.data_append, List.append_assoc]

/-- Two strings with distinct fixed prefixes of at least 14 characters
stay distinct under arbitrary suffixes. -/
theorem fixed_ne_append (a b : String) (ha : 14 ≤ a.data.length)
    (hb : 14 ≤ b.data.length) (hne : a.data.take 14 ≠ b.data.take 14)
    (x y : String) : a ++ x ≠ b ++ y := by
  intro h
  apply hne
  have hd : a.data ++ x.data = b.data ++ y.data := by
    simpa [String.data_append] using congrArg String.data h
  calc a.data.take 14 = (a.data ++ x.data).take 14 :=
        (List.take_append_of_le_length ha).symm
    _ = (b.data ++ y.data).take 14 := by rw [hd]
    _ = b.data.take 14 := List.take_append_of_le_length hb

/-- An argument string of the form the credentialed variant builds for
the login identity. -/
def isLoginArg (s : String) : Prop := ∃ v, s = "-Dsonar.login=" ++ v

/-- An argument string of the form the credentialed variant builds for
the login secret. -/
def isPasswordArg (s : String) : Prop := ∃ v, s = "-Dsonar.password=" ++ v

theorem not_isLoginArg (a : String) (ha : 14 ≤ a.data.length)
    (hne : a.data.take 14 ≠ "-Dsonar.login=".data.take 14) (x : String) :
    ¬ isLoginArg (a ++ x) :=
  fun hl => hl.elim fun v hv => fixed_ne_append a "-Dsonar.login=" ha (by decide) hne x v hv

theorem not_isPasswordArg (a : String) (ha : 14 ≤ a.data.length)
    (hne : a.data.take 14 ≠ "-Dsonar.password=".data.take 14) (x : String) :
    ¬ isPasswordArg (a ++ x) :=
  fun hl => hl.elim fun v hv => fixed_ne_append a "-Dsonar.password=" ha (by decide) hne x v hv

theorem concatVal_ok {pre : String} {v : PyStr} {s : String}
    (h : concatVal pre v = .ok s) : ∃ t, v = some t ∧ s = pre ++ t := by
  cases v with
  | none => simp [concatVal] at h
  | some t =>
    simp only [concatVal, Except.ok.injEq] at h
    exact ⟨t, rfl, h.symm⟩

theorem projectKeyArg_ok {c : ConfigDict} {s : String} (h : projectKeyArg c = .ok s) :
    ∃ a b, get_config_value c "application-name" = some a ∧
      get_config_value c "service-name" = some b ∧
      s = (("-Dsonar.projectKey=" ++ a) ++ ":") ++ b := by
  unfold projectKeyArg at h
  split at h
  · exact absurd h (by simp)
  · rename_i ka hka
    obtain ⟨a, hva, rfl⟩ := concatVal_ok hka
    obtain ⟨b, hvb, rfl⟩ := concatVal_ok h
    exact ⟨a, b, hva, hvb, rfl⟩

theorem nonCredentialedArgs_ok {c : ConfigDict} {v wd : String} {l : List String}
    (h : nonCredentialedArgs c v wd = .ok l) :
    ∃ pf url app svc,
      get_config_value c "properties" = some pf ∧
      get_config_value c "url" = some url ∧
      get_config_value c "application-name" = some app ∧
      get_config_value c "service-name" = some svc ∧
      l = ["-Dproject.settings=" ++ pf, "-Dsonar.host.url=" ++ url,
        "-Dsonar.projectVersion=" ++ v,
        (("-Dsonar.projectKey=" ++ app) ++ ":") ++ svc,
        "-Dsonar.working.directory=" ++ wd] := by
  unfold nonCredentialedArgs at h
  split at h
  · exact absurd h (by simp)
  · rename_i a1 h1
    split at h
    · exact absurd h (by simp)
    · rename_i a2 h2
      split at h
      · exact absurd h (by simp)
      · rename_i a4 h4
        obtain ⟨pf, hpf, rfl⟩ := concatVal_ok h1
        obtain ⟨url, hurl, rfl⟩ := concatVal_ok h2
        obtain ⟨app, svc, happ, hsvc, rfl⟩ := projectKeyArg_ok h4
        simp only [Except.ok.injEq] at h
        exact ⟨pf, url, app, svc, hpf, hurl, happ, hsvc, h.symm⟩

theorem credentialedArgs_ok {c : ConfigDict} {v wd u p : String} {l : List String}
    (h : credentialedArgs c v wd u p = .ok l) :
    ∃ pf url app svc,
      get_config_value c "properties" = some pf ∧
      get_config_value c "url" = some url ∧
      get_config_value c "application-name" = some app ∧
      get_config_value c "service-name" = some svc ∧
      l = ["-Dproject.settings=" ++ pf, "-Dsonar.host.url=" ++ url,
        "-Dsonar.projectVersion=" ++ v,
        (("-Dsonar.projectKey=" ++ app) ++ ":") ++ svc,
        "-Dsonar.login=" ++ u, "-Dsonar.password=" ++ p,
        "-Dsonar.working.directory=" ++ wd] := by
  unfold credentialedArgs at h
  split at h
  · exact absurd h (by simp)
  · rename_i a1 h1
    split at h
    · exact absurd h (by simp)
    · rename_i a2 h2
      split at h
      · exact absurd h (by simp)
      · rename_i a4 h4
        obtain ⟨pf, hpf, rfl⟩ := concatVal_ok h1
        obtain ⟨url, hurl, rfl⟩ := concatVal_ok h2
        obtain ⟨app, svc, happ, hsvc, rfl⟩ := projectKeyArg_ok h4
        simp only [Except.ok.injEq] at h
        exact ⟨pf, url, app, svc, hpf, hurl, happ, hsvc, h.symm⟩

theorem run_of_validate_error {c : ConfigDict} {e : StepError}
    (gsr : String → Option ResultsDict) (fe : String → Bool) (wd : String)
    (ss : List String → Bool) (ed : String)
    (h : _validate_runtime_step_config c = .error e) :
    run c gsr fe wd ss ed = ⟨.error e, []⟩ := by
  unfold run
  rw [h]

theorem run_of_validate_ok {c : ConfigDict}
    (gsr : String → Option ResultsDict) (fe : String → Bool) (wd : String)
    (ss : List String → Bool) (ed : String)
    (h : _validate_runtime_step_config c = .ok ()) :
    run c gsr fe wd ss ed = _run_step c gsr fe wd ss ed := by
  unfold run
  rw [h]

theorem _run_step_of_version_error {c : ConfigDict} {e : StepError}
    {gsr : String → Option ResultsDict} (fe : String → Bool) (wd : String)
    (ss : List String → Bool) (ed : String)
    (h : get_version (gsr "generate-metadata") = .error e) :
    _run_step c gsr fe wd ss ed = ⟨.error e, []⟩ := by
  unfold _run_step
  rw [h]

theorem _run_step_of_properties_error {c : ConfigDict} {e : StepError} {version : String}
    {gsr : String → Option ResultsDict} {fe : String → Bool} (wd : String)
    (ss : List String → Bool) (ed : String)
    (hv : get_version (gsr "generate-metadata") = .ok version)
    (h : check_properties c fe = .error e) :
    _run_step c gsr fe wd ss ed = ⟨.error e, []⟩ := by
  unfold _run_step
  rw [hv, h]

theorem _run_step_eq {c : ConfigDict} {version : String}
    {gsr : String → Option ResultsDict} {fe : String → Bool} (wd : String)
    (ss : List String → Bool) (ed : String)
    (hv : get_version (gsr "generate-metadata") = .ok version)
    (hp : check_properties c fe = .ok ()) :
    _run_step c gsr fe wd ss ed =
      match (if (credentials c).1 == "" then nonCredentialedArgs c version wd
             else credentialedArgs c version wd (credentials c).1 (credentials c).2) with
      | .error e => ⟨.error e, []⟩
      | .ok args =>
        if ss args then ⟨.ok (step_success_results wd), [args]⟩
        else ⟨.error (.externalToolError ("Error invoking sonarscanner: " ++ ed)), [args]⟩ := by
  unfold _run_step
  rw [hv, hp]

/-- Every `run` either never invokes the scanner and errors, or invokes
it exactly once: with success result on exit zero, with the wrapping
external-tool error otherwise. -/
theorem run_cases (c : ConfigDict) (gsr : String → Option ResultsDict)
    (fe : String → Bool) (wd : String) (ss : List String → Bool) (ed : String) :
    ((run c gsr fe wd ss ed).invoked = [] ∧
      ∃ e, (run c gsr fe wd ss ed).result = .error e) ∨
    ∃ args, (run c gsr fe wd ss ed).invoked = [args] ∧
      ((ss args = true ∧
          (run c gsr fe wd ss ed).result = .ok (step_success_results wd)) ∨
       (ss args = false ∧
          (run c gsr fe wd ss ed).result =
            .error (.externalToolError ("Error invoking sonarscanner: " ++ ed)))) := by
  cases hval : _validate_runtime_step_config c with
  | error e =>
    rw [run_of_validate_error gsr fe wd ss ed hval]
    exact .inl ⟨rfl, e, rfl⟩
  | ok u =>
    cases u
    rw [run_of_validate_ok gsr fe wd ss ed hval]
    cases hver : get_version (gsr "generate-metadata") with
    | error e =>
      rw [_run_step_of_version_error fe wd ss ed hver]
      exact .inl ⟨rfl, e, rfl⟩
    | ok version =>
      cases hprop : check_properties c fe with
      | error e =>
        rw [_run_step_of_properties_error wd ss ed hver hprop]
        exact .inl ⟨rfl, e, rfl⟩
      | ok u2 =>
        cases u2
        rw [_run_step_eq wd ss ed hver hprop]
        cases hargs : (if (credentials c).1 == "" then nonCredentialedArgs c version wd
            else credentialedArgs c version wd (credentials c).1 (credentials c).2) with
        | error e => exact .inl ⟨rfl, e, rfl⟩
        | ok args =>
          cases hss : ss args with
          | true => exact .inr ⟨args, by simp [hss], .inl ⟨hss, by simp [hss]⟩⟩
          | false => exact .inr ⟨args, by simp [hss], .inr ⟨hss, by simp [hss]⟩⟩

/-- When `run` invoked the scanner, the whole precondition chain
succeeded and the invoked argument vector came from the variant chosen
by the credential branch. -/
theorem run_invoked_spec {c : ConfigDict} {gsr : String → Option ResultsDict}
    {fe : String → Bool} {wd : String} {ss : List String → Bool} {ed : String}
    {args : List String}
    (h : (run c gsr fe wd ss ed).invoked = [args]) :
    _validate_runtime_step_config c = .ok () ∧
    ∃ version, get_version (gsr "generate-metadata") = .ok version ∧
      check_properties c fe = .ok () ∧
      (if (credentials c).1 == "" then nonCredentialedArgs c version wd
       else credentialedArgs c version wd (credentials c).1 (credentials c).2) = .ok args := by
  cases hval : _validate_runtime_step_config c with
  | error e =>
    rw [run_of_validate_error gsr fe wd ss ed hval] at h
    exact absurd h (by simp)
  | ok u =>
    cases u
    rw [run_of_validate_ok gsr fe wd ss ed hval] at h
    cases hver : get_version (gsr "generate-metadata") with
    | error e =>
      rw [_run_step_of_version_error fe wd ss ed hver] at h
      exact absurd h (by simp)
    | ok version =>
      cases hprop : check_properties c fe with
      | error e =>
        rw [_run_step_of_properties_error wd ss ed hver hprop] at h
        exact absurd h (by simp)
      | ok u2 =>
        cases u2
        rw [_run_step_eq wd ss ed hver hprop] at h
        cases hargs : (if (credentials c).1 == "" then nonCredentialedArgs c version wd
            else credentialedArgs c version wd (credentials c).1 (credentials c).2) with
        | error e =>
          rw [hargs] at h
          exact absurd h (by simp)
        | ok args2 =>
          rw [hargs] at h
          have hargs2 : args2 = args := by
            cases hss : ss args2 with
            | true => simpa [hss] using h
            | false => simpa [hss] using h
          exact ⟨rfl, version, rfl, rfl, hargs2 ▸ hargs⟩

theorem key_arg_eq (app svc : String) :
    (("-Dsonar.projectKey=" ++ app) ++ ":") ++ svc
      = "-Dsonar.projectKey=" ++ (app ++ (":" ++ svc)) := by
  rw [str_append_assoc, str_append_assoc]

/-- The non-credentialed argument vector contains no login and no
password argument. -/
theorem nonCred_no_credential_args {c : ConfigDict} {v wd : String} {l : List String}
    (h : nonCredentialedArgs c v wd = .ok l) :
    ∀ s ∈ l, ¬ isLoginArg s ∧ ¬ isPasswordArg s := by
  obtain ⟨pf, url, app, svc, -, -, -, -, rfl⟩ := nonCredentialedArgs_ok h
  intro s hs
  simp only [List.mem_cons, List.not_mem_nil, or_false] at hs
  rcases hs with rfl | rfl | rfl | rfl | rfl
  · exact ⟨not_isLoginArg "-Dproject.settings=" (by decide) (by decide) pf,
      not_isPasswordArg "-Dproject.settings=" (by decide) (by decide) pf⟩
  · exact ⟨not_isLoginArg "-Dsonar.host.url=" (by decide) (by decide) url,
      not_isPasswordArg "-Dsonar.host.url=" (by decide) (by decide) url⟩
  · exact ⟨not_isLoginArg "-Dsonar.projectVersion=" (by decide) (by decide) v,
      not_isPasswordArg "-Dsonar.projectVersion=" (by decide) (by decide) v⟩
  · rw [key_arg_eq]
    exact ⟨not_isLoginArg "-Dsonar.projectKey=" (by decide) (by decide) (app ++ (":" ++ svc)),
      not_isPasswordArg "-Dsonar.projectKey=" (by decide) (by decide) (app ++ (":" ++ svc))⟩
  · exact ⟨not_isLoginArg "-Dsonar.working.directory=" (by decide) (by decide) wd,
      not_isPasswordArg "-Dsonar.working.directory=" (by decide) (by decide) wd⟩

/-- When both credential values are configured and truthy, lines 218–225
bind them. -/
theorem credentials_eq_of_truthy {c : ConfigDict} {u p : String}
    (hu : get_config_value c "user" = some u)
    (hp : get_config_value c "password" = some p)
    (hut : u ≠ "") (hpt : p ≠ "") : credentials c = (u, p) := by
  simp [credentials, has_config_value, AUTHENTICATION_CONFIG_KEYS, hu, hp, truthy, hut, hpt]

/-- When either credential value is non-truthy, lines 218–225 leave both
`user` and `password` as the empty string. -/
theorem credentials_eq_empty_of_not_truthy {c : ConfigDict}
    (h : truthy (get_config_value c "user") = false ∨
      truthy (get_config_value c "password") = false) :
    credentials c = ("", "") := by
  rcases h with h | h <;> simp [credentials, h]

/-! ### Claim theorems -/

/-- Claim C1: for every merged configuration (with its engine-enforced
required keys present), runtime step-config validation succeeds iff the
presence flags of the `user` and `password` keys are equal; when exactly
one of the two keys is present, validation fails with a
ConfigurationError and `run` never invokes the external process. -/
theorem claim_C1_credential_pair_validation (c : ConfigDict)
    (gsr : String → Option ResultsDict) (fe : String → Bool) (wd : String)
    (ss : List String → Bool) (ed : String)
    (hreq : REQUIRED_CONFIG_KEYS.all (fun k => hasKey c k) = true) :
    (_validate_runtime_step_config c = .ok () ↔
      hasKey c "user" = hasKey c "password") ∧
    (hasKey c "user" ≠ hasKey c "password" →
      (run c gsr fe wd ss ed).result = .error (.configurationError
        "Either username or password is not set. Neither or both must be set.") ∧
      (run c gsr fe wd ss ed).invoked = []) := by
  have hvr : validate_required_keys c = .ok () := by
    simp [validate_required_keys, hreq]
  constructor
  · cases hu : hasKey c "user" <;> cases hp : hasKey c "password" <;>
      simp [_validate_runtime_step_config, hvr, AUTHENTICATION_CONFIG_KEYS, hu, hp]
  · intro hne
    have hval : _validate_runtime_step_config c = .error (.configurationError
        "Either username or password is not set. Neither or both must be set.") := by
      cases hu : hasKey c "user" <;> cases hp : hasKey c "password"
      · exact absurd (hu.trans hp.symm) hne
      · simp [_validate_runtime_step_config, hvr, AUTHENTICATION_CONFIG_KEYS, hu, hp]
      · simp [_validate_runtime_step_config, hvr, AUTHENTICATION_CONFIG_KEYS, hu, hp]
      · exact absurd (hu.trans hp.symm) hne
    rw [run_of_validate_error gsr fe wd ss ed hval]
    exact ⟨rfl, rfl⟩

/-- Claim C2: whenever the external scanner is invoked and exits with
status zero, `run` returns a result record with `success = true`, the
fixed completion message, and exactly one report artifact named
"sonarqube result set" whose path is
`"file://" ++ workingDirectory ++ "/report-task.txt"`. -/
theorem claim_C2_success_result_shape (c : ConfigDict)
    (gsr : String → Option ResultsDict) (fe : String → Bool) (wd : String)
    (ss : List String → Bool) (ed : String) (args : List String)
    (hinv : (run c gsr fe wd ss ed).invoked = [args])
    (hzero : ss args = true) :
    (run c gsr fe wd ss ed).result = .ok
      { result :=
          { success := true
            message := "sonarqube step completed - see report-artifacts" }
        reportArtifacts :=
          [{ name := "sonarqube result set"
             path := "file://" ++ wd ++ "/report-task.txt" }] } := by
  rcases run_cases c gsr fe wd ss ed with ⟨hemp, -⟩ | ⟨args2, hinv2, hc⟩
  · rw [hinv] at hemp
    exact absurd hemp (by simp)
  · rw [hinv] at hinv2
    obtain rfl : args = args2 := by simpa using hinv2
    rcases hc with ⟨-, hres⟩ | ⟨hfalse, -⟩
    · simpa [step_success_results] using hres
    · rw [hzero] at hfalse
      exact absurd hfalse (by simp)

/-- Claim C3: whenever the external scanner is invoked and exits with a
non-zero status, `run` raises an ExternalToolError wrapping the process
failure detail; no StepResult is returned (the success-path record is
never constructed). -/
theorem claim_C3_nonzero_exit_raises (c : ConfigDict)
    (gsr : String → Option ResultsDict) (fe : String → Bool) (wd : String)
    (ss : List String → Bool) (ed : String) (args : List String)
    (hinv : (run c gsr fe wd ss ed).invoked = [args])
    (hnz : ss args = false) :
    (run c gsr fe wd ss ed).result =
      .error (.externalToolError ("Error invoking sonarscanner: " ++ ed)) := by
  rcases run_cases c gsr fe wd ss ed with ⟨hemp, -⟩ | ⟨args2, hinv2, hc⟩
  · rw [hinv] at hemp
    exact absurd hemp (by simp)
  · rw [hinv] at hinv2
    obtain rfl : args = args2 := by simpa using hinv2
    rcases hc with ⟨htrue, -⟩ | ⟨-, hres⟩
    · rw [hnz] at htrue
      exact absurd htrue (by simp)
    · exact hres

/-- Claim C5: whenever the external scanner is invoked, the project-key
argument (the fourth argument of either variant) is exactly
`"-Dsonar.projectKey=" ++ application-name ++ ":" ++ service-name`. -/
theorem claim_C5_project_key (c : ConfigDict)
    (gsr : String → Option ResultsDict) (fe : String → Bool) (wd : String)
    (ss : List String → Bool) (ed : String) (args : List String)
    (app svc : String)
    (hinv : (run c gsr fe wd ss ed).invoked = [args])
    (happ : get_config_value c "application-name" = some app)
    (hsvc : get_config_value c "service-name" = some svc) :
    args[3]? = some ("-Dsonar.projectKey=" ++ (app ++ (":" ++ svc))) := by
  obtain ⟨-, version, -, -, hargs⟩ := run_invoked_spec hinv
  split at hargs
  · obtain ⟨pf, url, app2, svc2, -, -, happ2, hsvc2, rfl⟩ := nonCredentialedArgs_ok hargs
    rw [happ] at happ2
    rw [hsvc] at hsvc2
    obtain rfl : app2 = app := Option.some.inj happ2.symm
    obtain rfl : svc2 = svc := Option.some.inj hsvc2.symm
    rw [← key_arg_eq]
    rfl
  · obtain ⟨pf, url, app2, svc2, -, -, happ2, hsvc2, rfl⟩ := credentialedArgs_ok hargs
    rw [happ] at happ2
    rw [hsvc] at hsvc2
    obtain rfl : app2 = app := Option.some.inj happ2.symm
    obtain rfl : svc2 = svc := Option.some.inj hsvc2.symm
    rw [← key_arg_eq]
    rfl

/-- Claim C4: whenever the external scanner is invoked, the argument
vector carries no login and no password argument if the credential pair
is absent (lines 218–225 left `user`/`password` empty); if both
credential values are configured and non-empty, it carries exactly one
login argument and one password argument with those values, placed
immediately before the working-directory argument. -/
theorem claim_C4_credential_arguments (c : ConfigDict)
    (gsr : String → Option ResultsDict) (fe : String → Bool) (wd : String)
    (ss : List String → Bool) (ed : String) (args : List String)
    (hinv : (run c gsr fe wd ss ed).invoked = [args]) :
    (credentials c = ("", "") →
      ∀ s ∈ args, ¬ isLoginArg s ∧ ¬ isPasswordArg s) ∧
    (∀ u p, get_config_value c "user" = some u →
      get_config_value c "password" = some p → u ≠ "" → p ≠ "" →
      ∃ shared, args = shared ++ ["-Dsonar.login=" ++ u, "-Dsonar.password=" ++ p,
          "-Dsonar.working.directory=" ++ wd] ∧
        (∀ s ∈ shared, ¬ isLoginArg s ∧ ¬ isPasswordArg s) ∧
        ¬ isPasswordArg ("-Dsonar.login=" ++ u) ∧
        ¬ isLoginArg ("-Dsonar.password=" ++ p) ∧
        ¬ isLoginArg ("-Dsonar.working.directory=" ++ wd) ∧
        ¬ isPasswordArg ("-Dsonar.working.directory=" ++ wd)) := by
  obtain ⟨-, version, -, -, hargs⟩ := run_invoked_spec hinv
  constructor
  · intro hcred
    rw [hcred] at hargs
    simp only [if_pos rfl] at hargs
    exact nonCred_no_credential_args hargs
  · intro u p hu hp hut hpt
    have hc : credentials c = (u, p) := credentials_eq_of_truthy hu hp hut hpt
    rw [hc] at hargs
    rw [if_neg (by simpa using hut)] at hargs
    obtain ⟨pf, url, app, svc, -, -, -, -, rfl⟩ := credentialedArgs_ok hargs
    refine ⟨["-Dproject.settings=" ++ pf, "-Dsonar.host.url=" ++ url,
      "-Dsonar.projectVersion=" ++ version,
      (("-Dsonar.projectKey=" ++ app) ++ ":") ++ svc], rfl, ?_, ?_, ?_, ?_, ?_⟩
    · intro s hs
      simp only [List.mem_cons, List.not_mem_nil, or_false] at hs
      rcases hs with rfl | rfl | rfl | rfl
      · exact ⟨not_isLoginArg "-Dproject.settings=" (by decide) (by decide) pf,
          not_isPasswordArg "-Dproject.settings=" (by decide) (by decide) pf⟩
      · exact ⟨not_isLoginArg "-Dsonar.host.url=" (by decide) (by decide) url,
          not_isPasswordArg "-Dsonar.host.url=" (by decide) (by decide) url⟩
      · exact ⟨not_isLoginArg "-Dsonar.projectVersion=" (by decide) (by decide) version,
          not_isPasswordArg "-Dsonar.projectVersion=" (by decide) (by decide) version⟩
      · rw [key_arg_eq]
        exact ⟨not_isLoginArg "-Dsonar.projectKey=" (by decide) (by decide)
            (app ++ (":" ++ svc)),
          not_isPasswordArg "-Dsonar.projectKey=" (by decide) (by decide)
            (app ++ (":" ++ svc))⟩
    · exact not_isPasswordArg "-Dsonar.login=" (by decide) (by decide) u
    · exact not_isLoginArg "-Dsonar.password=" (by decide) (by decide) p
    · exact not_isLoginArg "-Dsonar.working.directory=" (by decide) (by decide) wd
    · exact not_isPasswordArg "-Dsonar.working.directory=" (by decide) (by decide) wd

/-- Claim C6: when validation passes but the `generate-metadata` step
result is absent or lacks a non-empty `version` value, `run` fails with
MissingDependencyResultError and the external process is never
invoked. -/
theorem claim_C6_missing_prerequisite_version (c : ConfigDict)
    (gsr : String → Option ResultsDict) (fe : String → Bool) (wd : String)
    (ss : List String → Bool) (ed : String)
    (hval : _validate_runtime_step_config c = .ok ())
    (hnover : ∀ d, gsr "generate-metadata" = some d →
      ∀ v, dictGet d "version" = some v → v = "") :
    (run c gsr fe wd ss ed).result = .error (.missingDependencyResultError
      "Severe error: Generate-metadata results is missing a version tag") ∧
    (run c gsr fe wd ss ed).invoked = [] := by
  have hver : get_version (gsr "generate-metadata") = .error
      (.missingDependencyResultError
        "Severe error: Generate-metadata results is missing a version tag") := by
    cases hr : gsr "generate-metadata" with
    | none => simp [get_version, step_results_truthy, results_get, hr]
    | some d =>
      have hvf : truthy (results_get (some d) "version") = false := by
        cases hv : dictGet d "version" with
        | none => simp [results_get, truthy, hv]
        | some v =>
          have hve := hnover d hr v hv
          subst hve
          simp [results_get, truthy, hv]
      simp [get_version, hr, hvf]
  rw [run_of_validate_ok gsr fe wd ss ed hval,
    _run_step_of_version_error fe wd ss ed hver]
  exact ⟨rfl, rfl⟩

/-- Claim C7: when validation passes and the prerequisite version is
available but the resolved `properties` path does not exist on disk,
`run` fails with ConfigurationError and the external process is never
invoked. -/
theorem claim_C7_missing_properties_file (c : ConfigDict)
    (gsr : String → Option ResultsDict) (fe : String → Bool) (wd : String)
    (ss : List String → Bool) (ed : String) (version pf : String)
    (hval : _validate_runtime_step_config c = .ok ())
    (hver : get_version (gsr "generate-metadata") = .ok version)
    (hpf : get_config_value c "properties" = some pf)
    (hnx : fe pf = false) :
    (run c gsr fe wd ss ed).result = .error (.configurationError
      ("Properties file in tssc config not found: " ++ pf)) ∧
    (run c gsr fe wd ss ed).invoked = [] := by
  have hprop : check_properties c fe = .error (.configurationError
      ("Properties file in tssc config not found: " ++ pf)) := by
    simp [check_properties, hpf, hnx, concatVal]
  rw [run_of_validate_ok gsr fe wd ss ed hval,
    _run_step_of_properties_error wd ss ed hver hprop]
  exact ⟨rfl, rfl⟩

/-- Claim C8: for a fixed configuration, version and working directory,
the non-credentialed and credentialed command-assembly variants agree
byte for byte on every shared argument; the credentialed variant only
inserts the two credential arguments immediately before the
working-directory argument. -/
theorem claim_C8_variant_agreement (c : ConfigDict) (version wd u p : String)
    (l : List String) (h : nonCredentialedArgs c version wd = .ok l) :
    ∃ a1 a2 a3 a4, l = [a1, a2, a3, a4, "-Dsonar.working.directory=" ++ wd] ∧
      credentialedArgs c version wd u p =
        .ok [a1, a2, a3, a4, "-Dsonar.login=" ++ u, "-Dsonar.password=" ++ p,
          "-Dsonar.working.directory=" ++ wd] := by
  obtain ⟨pf, url, app, svc, hpf, hurl, happ, hsvc, rfl⟩ := nonCredentialedArgs_ok h
  refine ⟨_, _, _, _, rfl, ?_⟩
  simp [credentialedArgs, projectKeyArg, concatVal, hpf, hurl, happ, hsvc]

/-- Claim C9: when both credential keys are present (with the required
keys in place) but at least one configured value is empty or null,
validation passes and `run`, if it reaches the invocation, uses the
non-credentialed argument vector — the partially-valued credentials are
silently dropped. -/
theorem claim_C9_partial_credential_values (c : ConfigDict)
    (gsr : String → Option ResultsDict) (fe : String → Bool) (wd : String)
    (ss : List String → Bool) (ed : String)
    (hreq : REQUIRED_CONFIG_KEYS.all (fun k => hasKey c k) = true)
    (hu : hasKey c "user" = true) (hp : hasKey c "password" = true)
    (hv : truthy (get_config_value c "user") = false ∨
      truthy (get_config_value c "password") = false) :
    _validate_runtime_step_config c = .ok () ∧
    credentials c = ("", "") ∧
    ∀ args, (run c gsr fe wd ss ed).invoked = [args] →
      (∃ version, get_version (gsr "generate-metadata") = .ok version ∧
        nonCredentialedArgs c version wd = .ok args) ∧
      ∀ s ∈ args, ¬ isLoginArg s ∧ ¬ isPasswordArg s := by
  have hcred : credentials c = ("", "") := credentials_eq_empty_of_not_truthy hv
  refine ⟨?_, hcred, ?_⟩
  · simp [_validate_runtime_step_config, validate_required_keys, hreq,
      AUTHENTICATION_CONFIG_KEYS, hu, hp]
  · intro args hinv
    obtain ⟨-, version, hver, -, hargs⟩ := run_invoked_spec hinv
    rw [hcred] at hargs
    simp only [if_pos rfl] at hargs
    exact ⟨⟨version, hver, hargs⟩, nonCred_no_credential_args hargs⟩

/-- Claim C10: when validation passes and the prerequisite version is
available but the merged `properties` value resolves to null/absent, the
error-reporting branch itself fails: building the error message
concatenates a string with the null value, so `run` raises a TypeError
instead of the intended configuration error, and the external process is
never invoked. -/
theorem claim_C10_null_properties_type_error (c : ConfigDict)
    (gsr : String → Option ResultsDict) (fe : String → Bool) (wd : String)
    (ss : List String → Bool) (ed : String) (version : String)
    (hval : _validate_runtime_step_config c = .ok ())
    (hver : get_version (gsr "generate-metadata") = .ok version)
    (hpf : get_config_value c "properties" = none) :
    (run c gsr fe wd ss ed).result =
      .error (.typeError "can only concatenate str (not \"NoneType\") to str") ∧
    (run c gsr fe wd ss ed).invoked = [] := by
  have hprop : check_properties c fe = .error
      (.typeError "can only concatenate str (not \"NoneType\") to str") := by
    simp [check_properties, hpf, truthy, concatVal]
  rw [run_of_validate_ok gsr fe wd ss ed hval,
    _run_step_of_properties_error wd ss ed hver hprop]
  exact ⟨rfl, rfl⟩

/-! ### Concrete fixtures and witnesses -/

/-- A minimal valid merged configuration without credentials. -/
def cfgStd : ConfigDict :=
  [("url", some "https://sonar.example.com"), ("application-name", some "app"),
   ("service-name", some "svc"), ("properties", some "./sonar-project.properties")]

/-- The valid configuration with a full credential pair. -/
def cfgCred : ConfigDict := cfgStd ++ [("user", some "u"), ("password", some "p")]

/-- The valid configuration with only the `user` key set. -/
def cfgPartial : ConfigDict := cfgStd ++ [("user", some "u")]

/-- The valid configuration with both credential keys but an empty
password value. -/
def cfgEmptyPass : ConfigDict := cfgStd ++ [("user", some "u"), ("password", some "")]

/-- A valid configuration whose merged `properties` value is absent. -/
def cfgNoProps : ConfigDict :=
  [("url", some "https://sonar.example.com"), ("application-name", some "app"),
   ("service-name", some "svc")]

/-- Prior results carrying a `generate-metadata` version. -/
def gsrStd : String → Option ResultsDict :=
  fun n => if n == "generate-metadata" then some [("version", some "1.2.3")] else none

/-- The argument vector `run` passes to the scanner for `cfgStd`. -/
def argsStd : List String :=
  ["-Dproject.settings=./sonar-project.properties",
   "-Dsonar.host.url=https://sonar.example.com",
   "-Dsonar.projectVersion=1.2.3", "-Dsonar.projectKey=app:svc",
   "-Dsonar.working.directory=work"]

/-- The argument vector `run` passes to the scanner for `cfgCred`. -/
def argsCred : List String :=
  ["-Dproject.settings=./sonar-project.properties",
   "-Dsonar.host.url=https://sonar.example.com",
   "-Dsonar.projectVersion=1.2.3", "-Dsonar.projectKey=app:svc",
   "-Dsonar.login=u", "-Dsonar.password=p", "-Dsonar.working.directory=work"]

/-- Witness for claim C1 at a configuration with only `user` set. -/
theorem claim_C1_witness :
    (_validate_runtime_step_config cfgPartial = .ok () ↔
      hasKey cfgPartial "user" = hasKey cfgPartial "password") ∧
    (hasKey cfgPartial "user" ≠ hasKey cfgPartial "password" →
      (run cfgPartial gsrStd (fun _ => true) "work" (fun _ => true) "e").result =
        .error (.configurationError
          "Either username or password is not set. Neither or both must be set.") ∧
      (run cfgPartial gsrStd (fun _ => true) "work" (fun _ => true) "e").invoked = []) :=
  claim_C1_credential_pair_validation cfgPartial gsrStd (fun _ => true) "work"
    (fun _ => true) "e" (by decide)

/-- Witness for claim C2 on a fully successful concrete run. -/
theorem claim_C2_witness :
    (run cfgStd gsrStd (fun _ => true) "work" (fun _ => true) "e").result = .ok
      { result :=
          { success := true
            message := "sonarqube step completed - see report-artifacts" }
        reportArtifacts :=
          [{ name := "sonarqube result set"
             path := "file://" ++ "work" ++ "/report-task.txt" }] } :=
  claim_C2_success_result_shape cfgStd gsrStd (fun _ => true) "work" (fun _ => true)
    "e" argsStd (by decide) rfl

/-- Witness for claim C3 on a concrete run whose scanner exits
non-zero. -/
theorem claim_C3_witness :
    (run cfgStd gsrStd (fun _ => true) "work" (fun _ => false) "boom").result =
      .error (.externalToolError ("Error invoking sonarscanner: " ++ "boom")) :=
  claim_C3_nonzero_exit_raises cfgStd gsrStd (fun _ => true) "work" (fun _ => false)
    "boom" argsStd (by decide) rfl

/-- Witness for claim C4 on a concrete credentialed run. -/
theorem claim_C4_witness :
    ∃ shared, argsCred = shared ++ ["-Dsonar.login=" ++ "u", "-Dsonar.password=" ++ "p",
        "-Dsonar.working.directory=" ++ "work"] ∧
      (∀ s ∈ shared, ¬ isLoginArg s ∧ ¬ isPasswordArg s) ∧
      ¬ isPasswordArg ("-Dsonar.login=" ++ "u") ∧
      ¬ isLoginArg ("-Dsonar.password=" ++ "p") ∧
      ¬ isLoginArg ("-Dsonar.working.directory=" ++ "work") ∧
      ¬ isPasswordArg ("-Dsonar.working.directory=" ++ "work") :=
  (claim_C4_credential_arguments cfgCred gsrStd (fun _ => true) "work" (fun _ => true)
    "e" argsCred (by decide)).2 "u" "p" (by decide) (by decide) (by decide) (by decide)

/-- Witness for claim C5 on the concrete non-credentialed run. -/
theorem claim_C5_witness :
    argsStd[3]? = some ("-Dsonar.projectKey=" ++ ("app" ++ (":" ++ "svc"))) :=
  claim_C5_project_key cfgStd gsrStd (fun _ => true) "work" (fun _ => true) "e"
    argsStd "app" "svc" (by decide) (by decide) (by decide)

/-- Witness for claim C6 with no `generate-metadata` results at all. -/
theorem claim_C6_witness :
    (run cfgStd (fun _ => none) (fun _ => true) "work" (fun _ => true) "e").result =
      .error (.missingDependencyResultError
        "Severe error: Generate-metadata results is missing a version tag") ∧
    (run cfgStd (fun _ => none) (fun _ => true) "work" (fun _ => true) "e").invoked = [] :=
  claim_C6_missing_prerequisite_version cfgStd (fun _ => none) (fun _ => true) "work"
    (fun _ => true) "e" (by decide) (fun d hd => Option.noConfusion hd)

/-- Witness for claim C7 with a filesystem on which no path exists. -/
theorem claim_C7_witness :
    (run cfgStd gsrStd (fun _ => false) "work" (fun _ => true) "e").result =
      .error (.configurationError
        ("Properties file in tssc config not found: " ++ "./sonar-project.properties")) ∧
    (run cfgStd gsrStd (fun _ => false) "work" (fun _ => true) "e").invoked = [] :=
  claim_C7_missing_properties_file cfgStd gsrStd (fun _ => false) "work"
    (fun _ => true) "e" "1.2.3" "./sonar-project.properties" (by decide) (by decide)
    (by decide) rfl

/-- Witness for claim C8 on the concrete assembled vectors. -/
theorem claim_C8_witness :
    ∃ a1 a2 a3 a4, argsStd = [a1, a2, a3, a4, "-Dsonar.working.directory=" ++ "work"] ∧
      credentialedArgs cfgStd "1.2.3" "work" "u" "p" =
        .ok [a1, a2, a3, a4, "-Dsonar.login=" ++ "u", "-Dsonar.password=" ++ "p",
          "-Dsonar.working.directory=" ++ "work"] :=
  claim_C8_variant_agreement cfgStd "1.2.3" "work" "u" "p" argsStd (by decide)

/-- Witness for claim C9 at a configuration whose password value is the
empty string. -/
theorem claim_C9_witness :
    _validate_runtime_step_config cfgEmptyPass = .ok () ∧
    credentials cfgEmptyPass = ("", "") ∧
    ∀ args,
      (run cfgEmptyPass gsrStd (fun _ => true) "work" (fun _ => true) "e").invoked =
        [args] →
      (∃ version, get_version (gsrStd "generate-metadata") = .ok version ∧
        nonCredentialedArgs cfgEmptyPass version "work" = .ok args) ∧
      ∀ s ∈ args, ¬ isLoginArg s ∧ ¬ isPasswordArg s :=
  claim_C9_partial_credential_values cfgEmptyPass gsrStd (fun _ => true) "work"
    (fun _ => true) "e" (by decide) (by decide) (by decide) (.inr (by decide))

/-- Witness for claim C10 at a configuration with no merged `properties`
value. -/
theorem claim_C10_witness :
    (run cfgNoProps gsrStd (fun _ => true) "work" (fun _ => true) "e").result =
      .error (.typeError "can only concatenate str (not \"NoneType\") to str") ∧
    (run cfgNoProps gsrStd (fun _ => true) "work" (fun _ => true) "e").invoked = [] :=
  claim_C10_null_properties_type_error cfgNoProps gsrStd (fun _ => true) "work"
    (fun _ => true) "e" "1.2.3" (by decide) (by decide) (by decide)
